import Mathlib

/-!
Verification of the batched index inserter of the swine repository
(`src/index/update/inserter.rs`) and of the reindex trigger endpoint
(`src/service/rocket/api.rs`).

The Rust code is shallowly embedded: the database is a pair of row lists
together with a connection oracle (whether each successive connection
attempt succeeds), the crossbeam channel is the finite list of items it
delivers before closing, and the `Inserter` struct becomes a record whose
methods are pure state transformers.
-/

namespace Swine

/-- Embeds `struct Song` of `inserter.rs`: the row inserted into the
`songs` table.  `i32` fields become `Int`. -/
structure Song where
  path : String
  parent : String
  track_number : Option Int
  disc_number : Option Int
  title : Option String
  artist : Option String
  album_artist : Option String
  year : Option Int
  album : Option String
  artwork : Option String
  duration : Option Int
deriving DecidableEq, Repr

/-- Embeds `struct Directory` of `inserter.rs`: the row inserted into the
`directories` table.  Note that `date_added` is an ordinary field of the
descriptor; the struct has no generation field. -/
structure Directory where
  path : String
  parent : Option String
  artist : Option String
  year : Option Int
  album : Option String
  artwork : Option String
  date_added : Int
deriving DecidableEq, Repr

/-- Embeds `enum Item` of `inserter.rs`. -/
inductive Item where
  | Directory (d : Directory)
  | Song (s : Song)
deriving DecidableEq, Repr

/-- The state of the database as the inserter observes it: the two tables
(as row lists, in insertion order), an oracle telling whether the `n`-th
connection attempt succeeds (`DB::connect` or the subsequent `execute`
failing are merged into one failure event), and the number of connection
attempts made so far. -/
structure DBState where
  directoriesTable : List Directory
  songsTable : List Song
  connectOk : Nat → Bool
  connAttempts : Nat

/-- One attempted bulk insert into the `directories` table: on a
successful connection the rows are appended in one statement, otherwise
nothing is written.  Returns the new database state and whether the
insert succeeded. -/
def DBState.tryInsertDirectories (db : DBState) (rows : List Directory) :
    DBState × Bool :=
  if db.connectOk db.connAttempts then
    ({ db with directoriesTable := db.directoriesTable ++ rows,
               connAttempts := db.connAttempts + 1 }, true)
  else
    ({ db with connAttempts := db.connAttempts + 1 }, false)

/-- One attempted bulk insert into the `songs` table. -/
def DBState.tryInsertSongs (db : DBState) (rows : List Song) :
    DBState × Bool :=
  if db.connectOk db.connAttempts then
    ({ db with songsTable := db.songsTable ++ rows,
               connAttempts := db.connAttempts + 1 }, true)
  else
    ({ db with connAttempts := db.connAttempts + 1 }, false)

/-- `const INDEX_BUILDING_INSERT_BUFFER_SIZE: usize = 1000`. -/
def INDEX_BUILDING_INSERT_BUFFER_SIZE : Nat := 1000

/-- The message logged by `flush_directories` when the insert fails. -/
def directoriesFlushError : String :=
  "Could not insert new directories in database"

/-- The message logged by `flush_songs` when the insert fails. -/
def songsFlushError : String :=
  "Could not insert new songs in database"

/-- Embeds `struct Inserter`: the two in-memory buffers, the database
handle, and (for observability of `error!`) the log of emitted error
messages.  The channel receiver is passed to `insert` as the list of
items it will deliver. -/
structure Inserter where
  new_directories : List Directory
  new_songs : List Song
  db : DBState
  errorLog : List String

/-- Embeds `Inserter::new`: both buffers start empty (`reserve_exact` only
pre-allocates capacity and has no observable effect). -/
def Inserter.new (db : DBState) : Inserter :=
  { new_directories := [], new_songs := [], db := db, errorLog := [] }

/-- Embeds `Inserter::flush_directories`: attempt one bulk insert of the
buffered directory rows; on failure log an error; in both cases clear the
buffer. -/
def Inserter.flush_directories (s : Inserter) : Inserter :=
  let r := s.db.tryInsertDirectories s.new_directories
  { s with db := r.1,
           new_directories := [],
           errorLog :=
             if r.2 then s.errorLog else s.errorLog ++ [directoriesFlushError] }

/-- Embeds `Inserter::flush_songs`. -/
def Inserter.flush_songs (s : Inserter) : Inserter :=
  let r := s.db.tryInsertSongs s.new_songs
  { s with db := r.1,
           new_songs := [],
           errorLog :=
             if r.2 then s.errorLog else s.errorLog ++ [songsFlushError] }

/-- Embeds `Inserter::insert_item`: push the item onto the buffer of its
kind, then flush that buffer when its length has reached
`INDEX_BUILDING_INSERT_BUFFER_SIZE` (the Rust test is `len() >= SIZE`). -/
def Inserter.insert_item (s : Inserter) (item : Item) : Inserter :=
  match item with
  | Item.Directory d =>
    let s' := { s with new_directories := s.new_directories ++ [d] }
    if INDEX_BUILDING_INSERT_BUFFER_SIZE ≤ s'.new_directories.length then
      s'.flush_directories
    else
      s'
  | Item.Song sg =>
    let s' := { s with new_songs := s.new_songs ++ [sg] }
    if INDEX_BUILDING_INSERT_BUFFER_SIZE ≤ s'.new_songs.length then
      s'.flush_songs
    else
      s'

/-- The receive loop of `Inserter::insert` applied to the finite sequence
of items the channel delivers before closing. -/
def Inserter.processAll (s : Inserter) (items : List Item) : Inserter :=
  items.foldl Inserter.insert_item s

/-- The epilogue of `Inserter::insert`: flush each buffer when it is
non-empty (the Rust tests are `len() > 0`). -/
def Inserter.finalFlush (s : Inserter) : Inserter :=
  let s' := if 0 < s.new_directories.length then s.flush_directories else s
  if 0 < s'.new_songs.length then s'.flush_songs else s'

/-- Embeds `Inserter::insert`: drain the channel, then flush the
remaining non-empty buffers. -/
def Inserter.insert (s : Inserter) (items : List Item) : Inserter :=
  (s.processAll items).finalFlush

/-- The receive loop written with explicit fuel, one unit per call of
`receiver.recv()`: `recv` on the closed (exhausted) channel returns an
error and breaks the loop; running out of fuel means the loop has not yet
exited. -/
def Inserter.recvLoop : Nat → Inserter → List Item → Option Inserter
  | 0, _, _ => none
  | _ + 1, s, [] => some s
  | fuel + 1, s, item :: rest => Inserter.recvLoop fuel (s.insert_item item) rest

/-- The directory descriptors of an item sequence, in arrival order. -/
def dirsOf (items : List Item) : List Directory :=
  items.filterMap fun i =>
    match i with
    | Item.Directory d => some d
    | Item.Song _ => none

/-- The song descriptors of an item sequence, in arrival order. -/
def songsOf (items : List Item) : List Song :=
  items.filterMap fun i =>
    match i with
    | Item.Directory _ => none
    | Item.Song sg => some sg

/-- Growth of the database: every row present in `db1` is still present,
in place, in `db2` — the tables of `db2` only extend those of `db1`. -/
def DBExtends (db1 db2 : DBState) : Prop :=
  (∃ t, db2.directoriesTable = db1.directoriesTable ++ t) ∧
  (∃ t, db2.songsTable = db1.songsTable ++ t)

/-- Modelled from the spec: the phases of the Reindex Coordinator state
machine of §4.4.  The coordinator (`index::CommandSender` and the code
behind `trigger_reindex`) is not under `src/`; only its caller
`trigger_index` in `api.rs` is. -/
inductive CoordPhase where
  | Idle
  | Scanning
  | CuttingOver
deriving DecidableEq, Repr

/-- Modelled from the spec: coordinator state, with a counter of scan
pipelines started so far to make the single-flight property observable. -/
structure Coordinator where
  phase : CoordPhase
  pipelinesStarted : Nat
deriving DecidableEq, Repr

/-- Modelled from the spec: `CommandSender::trigger_reindex` — enqueues a
manual scan trigger and returns immediately with success; a trigger
received while already Scanning is a no-op and starts no second
pipeline. -/
def Coordinator.trigger_reindex (c : Coordinator) : Coordinator × Option Unit :=
  match c.phase with
  | CoordPhase.Scanning => (c, some ())
  | _ =>
    ({ phase := CoordPhase.Scanning,
       pipelinesStarted := c.pipelinesStarted + 1 }, some ())

/-- Embeds the `trigger_index` route handler of `api.rs`: it calls
`command_sender.trigger_reindex()?` and returns `Ok(())` when that
succeeds. -/
def trigger_index (c : Coordinator) : Coordinator × Option Unit :=
  let r := c.trigger_reindex
  (r.1, r.2.map fun _ => ())

/-- A sample song row used to instantiate hypotheses at witnesses. -/
def sampleSong : Song :=
  { path := "/A/1.mp3", parent := "/A", track_number := some 1,
    disc_number := none, title := some "One", artist := some "X",
    album_artist := none, year := some 2020, album := some "Y",
    artwork := none, duration := some 60 }

/-- A sample directory row with a chosen `date_added`. -/
def sampleDirectory (t : Int) : Directory :=
  { path := "/A", parent := some "", artist := some "X", year := some 2020,
    album := some "Y", artwork := none, date_added := t }

/-- An empty database with a chosen connection oracle. -/
def emptyDB (ok : Nat → Bool) : DBState :=
  { directoriesTable := [], songsTable := [], connectOk := ok,
    connAttempts := 0 }

end Swine

namespace Swine

/-! ### Helper lemmas about flushes -/

/-- A successful directory flush appends the buffered rows to the table
in one statement and clears the buffer. -/
theorem flush_directories_ok (s : Inserter)
    (h : s.db.connectOk s.db.connAttempts = true) :
    s.flush_directories =
      { s with
        db := { s.db with
                directoriesTable := s.db.directoriesTable ++ s.new_directories,
                connAttempts := s.db.connAttempts + 1 },
        new_directories := [] } := by
  simp [Inserter.flush_directories, DBState.tryInsertDirectories, h]

/-- A failed directory flush writes nothing, logs an error, and clears
the buffer. -/
theorem flush_directories_fail (s : Inserter)
    (h : s.db.connectOk s.db.connAttempts = false) :
    s.flush_directories =
      { s with
        db := { s.db with connAttempts := s.db.connAttempts + 1 },
        new_directories := [],
        errorLog := s.errorLog ++ [directoriesFlushError] } := by
  simp [Inserter.flush_directories, DBState.tryInsertDirectories, h]

/-- A successful song flush appends the buffered rows to the table in one
statement and clears the buffer. -/
theorem flush_songs_ok (s : Inserter)
    (h : s.db.connectOk s.db.connAttempts = true) :
    s.flush_songs =
      { s with
        db := { s.db with
                songsTable := s.db.songsTable ++ s.new_songs,
                connAttempts := s.db.connAttempts + 1 },
        new_songs := [] } := by
  simp [Inserter.flush_songs, DBState.tryInsertSongs, h]

/-- A failed song flush writes nothing, logs an error, and clears the
buffer. -/
theorem flush_songs_fail (s : Inserter)
    (h : s.db.connectOk s.db.connAttempts = false) :
    s.flush_songs =
      { s with
        db := { s.db with connAttempts := s.db.connAttempts + 1 },
        new_songs := [],
        errorLog := s.errorLog ++ [songsFlushError] } := by
  simp [Inserter.flush_songs, DBState.tryInsertSongs, h]

/-- The connection oracle is never modified by a directory flush. -/
theorem flush_directories_connectOk (s : Inserter) :
    (s.flush_directories).db.connectOk = s.db.connectOk := by
  rcases h : s.db.connectOk s.db.connAttempts with _ | _
  · rw [flush_directories_fail s h]
  · rw [flush_directories_ok s h]

/-- The connection oracle is never modified by a song flush. -/
theorem flush_songs_connectOk (s : Inserter) :
    (s.flush_songs).db.connectOk = s.db.connectOk := by
  rcases h : s.db.connectOk s.db.connAttempts with _ | _
  · rw [flush_songs_fail s h]
  · rw [flush_songs_ok s h]

/-- The connection oracle is never modified by `insert_item`. -/
theorem insert_item_connectOk (s : Inserter) (i : Item) :
    (s.insert_item i).db.connectOk = s.db.connectOk := by
  cases i with
  | Directory d =>
    rw [Inserter.insert_item]
    split
    · exact flush_directories_connectOk _
    · rfl
  | Song sg =>
    rw [Inserter.insert_item]
    split
    · exact flush_songs_connectOk _
    · rfl

/-- The connection oracle is never modified by draining the channel. -/
theorem processAll_connectOk (items : List Item) (s : Inserter) :
    (s.processAll items).db.connectOk = s.db.connectOk := by
  induction items generalizing s with
  | nil => rfl
  | cons i rest ih =>
    rw [Inserter.processAll, List.foldl_cons]
    exact (ih _).trans (insert_item_connectOk s i)

/-- A directory flush always clears the directory buffer. -/
theorem flush_directories_new_directories (s : Inserter) :
    (s.flush_directories).new_directories = [] := by
  rcases h : s.db.connectOk s.db.connAttempts with _ | _
  · rw [flush_directories_fail s h]
  · rw [flush_directories_ok s h]

/-- A directory flush never touches the song buffer. -/
theorem flush_directories_new_songs (s : Inserter) :
    (s.flush_directories).new_songs = s.new_songs := by
  rcases h : s.db.connectOk s.db.connAttempts with _ | _
  · rw [flush_directories_fail s h]
  · rw [flush_directories_ok s h]

/-- A directory flush never writes to the `songs` table. -/
theorem flush_directories_songsTable (s : Inserter) :
    (s.flush_directories).db.songsTable = s.db.songsTable := by
  rcases h : s.db.connectOk s.db.connAttempts with _ | _
  · rw [flush_directories_fail s h]
  · rw [flush_directories_ok s h]

/-- A directory flush makes exactly one connection attempt. -/
theorem flush_directories_connAttempts (s : Inserter) :
    (s.flush_directories).db.connAttempts = s.db.connAttempts + 1 := by
  rcases h : s.db.connectOk s.db.connAttempts with _ | _
  · rw [flush_directories_fail s h]
  · rw [flush_directories_ok s h]

/-- A successful directory flush appends the buffer to the table. -/
theorem flush_directories_table_ok (s : Inserter)
    (h : s.db.connectOk s.db.connAttempts = true) :
    (s.flush_directories).db.directoriesTable
      = s.db.directoriesTable ++ s.new_directories := by
  rw [flush_directories_ok s h]

/-- A song flush always clears the song buffer. -/
theorem flush_songs_new_songs (s : Inserter) :
    (s.flush_songs).new_songs = [] := by
  rcases h : s.db.connectOk s.db.connAttempts with _ | _
  · rw [flush_songs_fail s h]
  · rw [flush_songs_ok s h]

/-- A song flush never touches the directory buffer. -/
theorem flush_songs_new_directories (s : Inserter) :
    (s.flush_songs).new_directories = s.new_directories := by
  rcases h : s.db.connectOk s.db.connAttempts with _ | _
  · rw [flush_songs_fail s h]
  · rw [flush_songs_ok s h]

/-- A song flush never writes to the `directories` table. -/
theorem flush_songs_directoriesTable (s : Inserter) :
    (s.flush_songs).db.directoriesTable = s.db.directoriesTable := by
  rcases h : s.db.connectOk s.db.connAttempts with _ | _
  · rw [flush_songs_fail s h]
  · rw [flush_songs_ok s h]

/-- A song flush makes exactly one connection attempt. -/
theorem flush_songs_connAttempts (s : Inserter) :
    (s.flush_songs).db.connAttempts = s.db.connAttempts + 1 := by
  rcases h : s.db.connectOk s.db.connAttempts with _ | _
  · rw [flush_songs_fail s h]
  · rw [flush_songs_ok s h]

/-- A successful song flush appends the buffer to the table. -/
theorem flush_songs_table_ok (s : Inserter)
    (h : s.db.connectOk s.db.connAttempts = true) :
    (s.flush_songs).db.songsTable = s.db.songsTable ++ s.new_songs := by
  rw [flush_songs_ok s h]

/-- `dirsOf` distributes over cons. -/
theorem dirsOf_cons (i : Item) (rest : List Item) :
    dirsOf (i :: rest) = dirsOf [i] ++ dirsOf rest := by
  cases i <;> simp [dirsOf]

/-- `songsOf` distributes over cons. -/
theorem songsOf_cons (i : Item) (rest : List Item) :
    songsOf (i :: rest) = songsOf [i] ++ songsOf rest := by
  cases i <;> simp [songsOf]

/-- Unfolding of `processAll` on a cons cell. -/
theorem processAll_cons (s : Inserter) (i : Item) (rest : List Item) :
    s.processAll (i :: rest) = (s.insert_item i).processAll rest := rfl

/-- When every connection succeeds, one `insert_item` step adds the item
to the rows-written-or-buffered of its kind and leaves the other kind
untouched. -/
theorem insert_item_pending (s : Inserter) (i : Item)
    (hok : ∀ n, s.db.connectOk n = true) :
    ((s.insert_item i).db.directoriesTable ++ (s.insert_item i).new_directories
        = (s.db.directoriesTable ++ s.new_directories) ++ dirsOf [i]) ∧
    ((s.insert_item i).db.songsTable ++ (s.insert_item i).new_songs
        = (s.db.songsTable ++ s.new_songs) ++ songsOf [i]) := by
  cases i with
  | Directory d =>
    rw [Inserter.insert_item]
    split
    · simp [Inserter.flush_directories, DBState.tryInsertDirectories, hok,
        dirsOf, songsOf]
    · simp [dirsOf, songsOf]
  | Song sg =>
    rw [Inserter.insert_item]
    split
    · simp [Inserter.flush_songs, DBState.tryInsertSongs, hok,
        dirsOf, songsOf]
    · simp [dirsOf, songsOf]

/-- When every connection succeeds, draining the channel adds exactly the
received descriptors, in order, to the rows written or buffered. -/
theorem processAll_pending (items : List Item) (s : Inserter)
    (hok : ∀ n, s.db.connectOk n = true) :
    ((s.processAll items).db.directoriesTable
        ++ (s.processAll items).new_directories
      = (s.db.directoriesTable ++ s.new_directories) ++ dirsOf items) ∧
    ((s.processAll items).db.songsTable ++ (s.processAll items).new_songs
      = (s.db.songsTable ++ s.new_songs) ++ songsOf items) := by
  induction items generalizing s with
  | nil => simp [Inserter.processAll, dirsOf, songsOf]
  | cons i rest ih =>
    have hok' : ∀ n, (s.insert_item i).db.connectOk n = true := by
      rw [insert_item_connectOk]; exact hok
    obtain ⟨h1, h2⟩ := insert_item_pending s i hok
    obtain ⟨g1, g2⟩ := ih (s.insert_item i) hok'
    refine ⟨?_, ?_⟩
    · rw [processAll_cons, g1, h1, dirsOf_cons i rest, List.append_assoc]
    · rw [processAll_cons, g2, h2, songsOf_cons i rest, List.append_assoc]

/-- A list whose length is not positive is empty. -/
theorem nil_of_not_pos {α : Type _} {l : List α} (h : ¬0 < l.length) :
    l = [] :=
  List.length_eq_zero.mp (Nat.eq_zero_of_not_pos h)

/-- After the epilogue of `insert`, both buffers are empty, whatever the
connection oracle did. -/
theorem finalFlush_buffers (s : Inserter) :
    (s.finalFlush).new_directories = [] ∧ (s.finalFlush).new_songs = [] := by
  rw [Inserter.finalFlush]
  split_ifs with hd hs hs
  · exact ⟨(flush_songs_new_directories _).trans
      (flush_directories_new_directories s), flush_songs_new_songs _⟩
  · refine ⟨flush_directories_new_directories s, ?_⟩
    rw [flush_directories_new_songs s] at hs
    exact nil_of_not_pos hs
  · exact ⟨(flush_songs_new_directories s).trans (nil_of_not_pos hd),
      flush_songs_new_songs s⟩
  · exact ⟨nil_of_not_pos hd, nil_of_not_pos hs⟩

/-- When every connection succeeds, the epilogue moves both buffers into
their tables. -/
theorem finalFlush_tables_ok (s : Inserter)
    (hok : ∀ n, s.db.connectOk n = true) :
    (s.finalFlush).db.directoriesTable
        = s.db.directoriesTable ++ s.new_directories ∧
    (s.finalFlush).db.songsTable = s.db.songsTable ++ s.new_songs := by
  rw [Inserter.finalFlush]
  split_ifs with hd hs hs
  · have h2 : (s.flush_directories).db.connectOk
        (s.flush_directories).db.connAttempts = true := by
      rw [flush_directories_connectOk]; exact hok _
    refine ⟨?_, ?_⟩
    · rw [flush_songs_directoriesTable, flush_directories_table_ok s (hok _)]
    · rw [flush_songs_table_ok _ h2, flush_directories_songsTable,
        flush_directories_new_songs]
  · refine ⟨flush_directories_table_ok s (hok _), ?_⟩
    rw [flush_directories_new_songs s] at hs
    rw [flush_directories_songsTable, nil_of_not_pos hs, List.append_nil]
  · refine ⟨?_, flush_songs_table_ok s (hok _)⟩
    rw [flush_songs_directoriesTable, nil_of_not_pos hd, List.append_nil]
  · rw [nil_of_not_pos hd, nil_of_not_pos hs]
    simp

/-- The epilogue performs exactly one connection attempt (one flush) per
non-empty buffer. -/
theorem finalFlush_connAttempts (s : Inserter) :
    (s.finalFlush).db.connAttempts =
      s.db.connAttempts + (if s.new_directories = [] then 0 else 1)
        + (if s.new_songs = [] then 0 else 1) := by
  simp only [Inserter.finalFlush]
  by_cases hd : s.new_directories = []
  · have h1 : ¬0 < s.new_directories.length := by simp [hd]
    rw [if_neg h1]
    by_cases hs : s.new_songs = []
    · have h2 : ¬0 < s.new_songs.length := by simp [hs]
      rw [if_neg h2, if_pos hd, if_pos hs]
      omega
    · have h2 : 0 < s.new_songs.length := List.length_pos.mpr hs
      rw [if_pos h2, flush_songs_connAttempts, if_pos hd, if_neg hs]
  · have h1 : 0 < s.new_directories.length := List.length_pos.mpr hd
    rw [if_pos h1]
    by_cases hs : s.new_songs = []
    · have h2 : ¬0 < (s.flush_directories).new_songs.length := by
        rw [flush_directories_new_songs]; simp [hs]
      rw [if_neg h2, flush_directories_connAttempts, if_neg hd, if_pos hs]
    · have h2 : 0 < (s.flush_directories).new_songs.length := by
        rw [flush_directories_new_songs]; exact List.length_pos.mpr hs
      rw [if_pos h2, flush_songs_connAttempts, flush_directories_connAttempts,
        if_neg hd, if_neg hs]

/-- `DBExtends` is reflexive. -/
theorem dbExtends_refl (db : DBState) : DBExtends db db :=
  ⟨⟨[], by simp⟩, ⟨[], by simp⟩⟩

/-- `DBExtends` is transitive. -/
theorem dbExtends_trans {a b c : DBState}
    (h1 : DBExtends a b) (h2 : DBExtends b c) : DBExtends a c := by
  obtain ⟨⟨t1, e1⟩, ⟨t2, e2⟩⟩ := h1
  obtain ⟨⟨u1, f1⟩, ⟨u2, f2⟩⟩ := h2
  exact ⟨⟨t1 ++ u1, by rw [f1, e1, List.append_assoc]⟩,
    ⟨t2 ++ u2, by rw [f2, e2, List.append_assoc]⟩⟩

/-- A directory flush only ever appends rows. -/
theorem flush_directories_extends (s : Inserter) :
    DBExtends s.db (s.flush_directories).db := by
  rcases h : s.db.connectOk s.db.connAttempts with _ | _
  · rw [flush_directories_fail s h]; exact dbExtends_refl _
  · rw [flush_directories_ok s h]
    exact ⟨⟨s.new_directories, rfl⟩, ⟨[], by simp⟩⟩

/-- A song flush only ever appends rows. -/
theorem flush_songs_extends (s : Inserter) :
    DBExtends s.db (s.flush_songs).db := by
  rcases h : s.db.connectOk s.db.connAttempts with _ | _
  · rw [flush_songs_fail s h]; exact dbExtends_refl _
  · rw [flush_songs_ok s h]
    exact ⟨⟨[], by simp⟩, ⟨s.new_songs, rfl⟩⟩

/-- One `insert_item` step only ever appends rows. -/
theorem insert_item_extends (s : Inserter) (i : Item) :
    DBExtends s.db (s.insert_item i).db := by
  cases i with
  | Directory d =>
    rw [Inserter.insert_item]
    split
    · exact flush_directories_extends _
    · exact dbExtends_refl _
  | Song sg =>
    rw [Inserter.insert_item]
    split
    · exact flush_songs_extends _
    · exact dbExtends_refl _

/-- Draining the channel only ever appends rows. -/
theorem processAll_extends (items : List Item) (s : Inserter) :
    DBExtends s.db (s.processAll items).db := by
  induction items generalizing s with
  | nil => exact dbExtends_refl _
  | cons i rest ih =>
    rw [processAll_cons]
    exact dbExtends_trans (insert_item_extends s i) (ih _)

/-- The epilogue only ever appends rows. -/
theorem finalFlush_extends (s : Inserter) :
    DBExtends s.db (s.finalFlush).db := by
  rw [Inserter.finalFlush]
  split_ifs with hd hs hs
  · exact dbExtends_trans (flush_directories_extends s)
      (flush_songs_extends _)
  · exact flush_directories_extends s
  · exact flush_songs_extends s
  · exact dbExtends_refl _

/-- Whatever the oracle does, the directory table after a flush is a
sublist of the table extended by the flushed buffer. -/
theorem flush_directories_table_sub (s : Inserter) :
    ((s.flush_directories).db.directoriesTable).Sublist
      (s.db.directoriesTable ++ s.new_directories) := by
  rcases h : s.db.connectOk s.db.connAttempts with _ | _
  · rw [flush_directories_fail s h]
    exact List.sublist_append_left _ _
  · rw [flush_directories_ok s h]

/-- Whatever the oracle does, the song table after a flush is a sublist
of the table extended by the flushed buffer. -/
theorem flush_songs_table_sub (s : Inserter) :
    ((s.flush_songs).db.songsTable).Sublist
      (s.db.songsTable ++ s.new_songs) := by
  rcases h : s.db.connectOk s.db.connAttempts with _ | _
  · rw [flush_songs_fail s h]
    exact List.sublist_append_left _ _
  · rw [flush_songs_ok s h]

/-- One `insert_item` step keeps the written-or-buffered directory rows a
sublist of what they were plus the new descriptor. -/
theorem insert_item_pending_sub (s : Inserter) (i : Item) :
    (((s.insert_item i).db.directoriesTable
        ++ (s.insert_item i).new_directories).Sublist
      ((s.db.directoriesTable ++ s.new_directories) ++ dirsOf [i])) ∧
    (((s.insert_item i).db.songsTable ++ (s.insert_item i).new_songs).Sublist
      ((s.db.songsTable ++ s.new_songs) ++ songsOf [i])) := by
  cases i with
  | Directory d =>
    rw [Inserter.insert_item]
    split
    · constructor
      · have h1 := flush_directories_table_sub
          { s with new_directories := s.new_directories ++ [d] }
        have h2 := flush_directories_new_directories
          { s with new_directories := s.new_directories ++ [d] }
        rw [h2, List.append_nil]
        simpa [dirsOf, List.append_assoc] using h1
      · rw [flush_directories_songsTable, flush_directories_new_songs]
        simp [songsOf]
    · constructor
      · simp [dirsOf, List.append_assoc]
      · simp [songsOf]
  | Song sg =>
    rw [Inserter.insert_item]
    split
    · constructor
      · rw [flush_songs_directoriesTable, flush_songs_new_directories]
        simp [dirsOf]
      · have h1 := flush_songs_table_sub
          { s with new_songs := s.new_songs ++ [sg] }
        have h2 := flush_songs_new_songs
          { s with new_songs := s.new_songs ++ [sg] }
        rw [h2, List.append_nil]
        simpa [songsOf, List.append_assoc] using h1
    · constructor
      · simp [dirsOf]
      · simp [songsOf, List.append_assoc]

/-- Draining the channel keeps the written-or-buffered rows a sublist of
the initial rows plus all received descriptors. -/
theorem processAll_pending_sub (items : List Item) (s : Inserter) :
    (((s.processAll items).db.directoriesTable
        ++ (s.processAll items).new_directories).Sublist
      ((s.db.directoriesTable ++ s.new_directories) ++ dirsOf items)) ∧
    (((s.processAll items).db.songsTable
        ++ (s.processAll items).new_songs).Sublist
      ((s.db.songsTable ++ s.new_songs) ++ songsOf items)) := by
  induction items generalizing s with
  | nil => simp [Inserter.processAll, dirsOf, songsOf]
  | cons i rest ih =>
    obtain ⟨h1, h2⟩ := insert_item_pending_sub s i
    obtain ⟨g1, g2⟩ := ih (s.insert_item i)
    constructor
    · rw [processAll_cons, dirsOf_cons i rest, ← List.append_assoc]
      exact g1.trans (h1.append_right _)
    · rw [processAll_cons, songsOf_cons i rest, ← List.append_assoc]
      exact g2.trans (h2.append_right _)

/-- The epilogue keeps each table a sublist of the former table plus its
former buffer. -/
theorem finalFlush_tables_sub (s : Inserter) :
    (((s.finalFlush).db.directoriesTable).Sublist
      (s.db.directoriesTable ++ s.new_directories)) ∧
    (((s.finalFlush).db.songsTable).Sublist
      (s.db.songsTable ++ s.new_songs)) := by
  rw [Inserter.finalFlush]
  split_ifs with hd hs hs
  · constructor
    · rw [flush_songs_directoriesTable]
      exact flush_directories_table_sub s
    · have h1 := flush_songs_table_sub s.flush_directories
      rw [flush_directories_songsTable, flush_directories_new_songs] at h1
      exact h1
  · refine ⟨flush_directories_table_sub s, ?_⟩
    rw [flush_directories_songsTable]
    exact List.sublist_append_left _ _
  · refine ⟨?_, flush_songs_table_sub s⟩
    rw [flush_songs_directoriesTable]
    exact List.sublist_append_left _ _
  · exact ⟨List.sublist_append_left _ _, List.sublist_append_left _ _⟩

/-- A full `insert` run writes, per table, a sublist of the initial rows
plus all received descriptors of that kind: a failed batch can lose rows
of that batch but nothing is ever duplicated or corrupted. -/
theorem insert_tables_sub (db : DBState) (items : List Item) :
    ((((Inserter.new db).insert items).db.directoriesTable).Sublist
      (db.directoriesTable ++ dirsOf items)) ∧
    ((((Inserter.new db).insert items).db.songsTable).Sublist
      (db.songsTable ++ songsOf items)) := by
  obtain ⟨p1, p2⟩ := processAll_pending_sub items (Inserter.new db)
  obtain ⟨f1, f2⟩ := finalFlush_tables_sub ((Inserter.new db).processAll items)
  have g1 := f1.trans p1
  have g2 := f2.trans p2
  rw [Inserter.insert]
  constructor
  · simpa [Inserter.new] using g1
  · simpa [Inserter.new] using g2

/-- With fuel one greater than the number of delivered items (the extra
`recv` is the one that observes the closed channel and breaks), the
receive loop exits and computes exactly the fold of `insert_item`. -/
theorem recvLoop_terminates (items : List Item) (s : Inserter) :
    Inserter.recvLoop (items.length + 1) s items
      = some (s.processAll items) := by
  induction items generalizing s with
  | nil => rfl
  | cons i rest ih => exact ih (s.insert_item i)

/-! ### Claim theorems -/

/-- Claim C1: for every finite sequence of entry descriptors received on
the channel, once the channel is drained and closed (and every database
connection attempt succeeds), every descriptor has been written to its
table exactly once — the final tables are exactly the initial tables
extended by the received descriptors in arrival order, with no
duplication and no loss, whatever the alignment of the sequence length
with the batch size of 1000. -/
theorem C1_exactly_once (db : DBState) (items : List Item)
    (hok : ∀ n, db.connectOk n = true) :
    ((Inserter.new db).insert items).db.directoriesTable
        = db.directoriesTable ++ dirsOf items ∧
    ((Inserter.new db).insert items).db.songsTable
        = db.songsTable ++ songsOf items := by
  obtain ⟨p1, p2⟩ := processAll_pending items (Inserter.new db) hok
  have hokP : ∀ n,
      ((Inserter.new db).processAll items).db.connectOk n = true := by
    rw [processAll_connectOk]; exact hok
  obtain ⟨f1, f2⟩ := finalFlush_tables_ok _ hokP
  rw [Inserter.insert]
  constructor
  · rw [f1, p1]; simp [Inserter.new]
  · rw [f2, p2]; simp [Inserter.new]

/-- Witness for C1: a concrete run of two directories and one song over
an always-successful connection. -/
theorem C1_exactly_once_witness :
    ((Inserter.new (emptyDB fun _ => true)).insert
        [Item.Directory (sampleDirectory 1), Item.Song sampleSong,
          Item.Directory (sampleDirectory 2)]).db.directoriesTable
      = [sampleDirectory 1, sampleDirectory 2] ∧
    ((Inserter.new (emptyDB fun _ => true)).insert
        [Item.Directory (sampleDirectory 1), Item.Song sampleSong,
          Item.Directory (sampleDirectory 2)]).db.songsTable
      = [sampleSong] := by
  have h := C1_exactly_once (emptyDB fun _ => true)
    [Item.Directory (sampleDirectory 1), Item.Song sampleSong,
      Item.Directory (sampleDirectory 2)] (fun _ => rfl)
  exact ⟨h.1.trans rfl, h.2.trans rfl⟩

/-- Claim C5: on channel closure the Inserter flushes each of its two
buffers exactly when that buffer is non-empty (each flush is one
connection attempt, so the attempt count rises by one per non-empty
buffer), and after `insert` returns no rows remain buffered. -/
theorem C5_final_partial_batch :
    (∀ s : Inserter,
      (s.finalFlush).new_directories = [] ∧
      (s.finalFlush).new_songs = [] ∧
      (s.finalFlush).db.connAttempts =
        s.db.connAttempts + (if s.new_directories = [] then 0 else 1)
          + (if s.new_songs = [] then 0 else 1)) ∧
    (∀ (s : Inserter) (items : List Item),
      (s.insert items).new_directories = [] ∧
      (s.insert items).new_songs = []) := by
  refine ⟨fun s => ⟨(finalFlush_buffers s).1, (finalFlush_buffers s).2,
      finalFlush_connAttempts s⟩, fun s items => ?_⟩
  rw [Inserter.insert]
  exact finalFlush_buffers _

/-- Claim C6: the Inserter's effect on the Index Store is strictly
additive — after any of its operations (a single received item, a flush
of either kind, or a whole `insert` run over a channel), every row
present in either table beforehand is still present, in place; rows are
only appended, never deleted. -/
theorem C6_strictly_additive :
    (∀ (s : Inserter) (i : Item), DBExtends s.db (s.insert_item i).db) ∧
    (∀ s : Inserter, DBExtends s.db (s.flush_directories).db) ∧
    (∀ s : Inserter, DBExtends s.db (s.flush_songs).db) ∧
    (∀ (s : Inserter) (items : List Item),
      DBExtends s.db (s.insert items).db) := by
  refine ⟨insert_item_extends, flush_directories_extends,
    flush_songs_extends, fun s items => ?_⟩
  rw [Inserter.insert]
  exact dbExtends_trans (processAll_extends items s) (finalFlush_extends _)

/-- Claim C9: kind isolation — processing a Directory item leaves the
song buffer and the songs table unchanged, processing a Song item leaves
the directory buffer and the directories table unchanged, and a flush of
one kind never writes to the other kind's table. -/
theorem C9_kind_isolation :
    (∀ (s : Inserter) (d : Directory),
      (s.insert_item (Item.Directory d)).new_songs = s.new_songs ∧
      (s.insert_item (Item.Directory d)).db.songsTable = s.db.songsTable) ∧
    (∀ (s : Inserter) (sg : Song),
      (s.insert_item (Item.Song sg)).new_directories = s.new_directories ∧
      (s.insert_item (Item.Song sg)).db.directoriesTable
        = s.db.directoriesTable) ∧
    (∀ s : Inserter, (s.flush_directories).db.songsTable
      = s.db.songsTable) ∧
    (∀ s : Inserter, (s.flush_songs).db.directoriesTable
      = s.db.directoriesTable) := by
  refine ⟨?_, ?_, flush_directories_songsTable, flush_songs_directoriesTable⟩
  · intro s d
    rw [Inserter.insert_item]
    split
    · exact ⟨flush_directories_new_songs _, flush_directories_songsTable _⟩
    · exact ⟨rfl, rfl⟩
  · intro s sg
    rw [Inserter.insert_item]
    split
    · exact ⟨flush_songs_new_directories _, flush_songs_directoriesTable _⟩
    · exact ⟨rfl, rfl⟩

/-- Claim C10: for every finite item sequence followed by channel
closure, `insert` terminates — the receive loop, given fuel equal to one
call of `recv` per item plus the one that observes closure, exits with
the fold of `insert_item`, `insert` is that fold followed by the
epilogue, and the epilogue makes at most two further flushes (connection
attempts). -/
theorem C10_insert_terminates (s : Inserter) (items : List Item) :
    Inserter.recvLoop (items.length + 1) s items
        = some (s.processAll items) ∧
    s.insert items = (s.processAll items).finalFlush ∧
    (s.insert items).db.connAttempts
      ≤ (s.processAll items).db.connAttempts + 2 := by
  refine ⟨recvLoop_terminates items s, rfl, ?_⟩
  rw [Inserter.insert, finalFlush_connAttempts]
  split_ifs <;> omega

/-- Claim C2 counterexample: if the Inserter assigned `date_added` itself
at the moment of appending, two Directory descriptors received in the
same state and differing only in their incoming `date_added` field would
be buffered identically; they are not — the incoming value (42 versus
43) is what ends up in the buffer, so the ingestion side assigns nothing
(and the row types carry no generation field at all). -/
theorem C2_counterexample :
    ((Inserter.new (emptyDB fun _ => true)).insert_item
        (Item.Directory (sampleDirectory 42))).new_directories
      ≠ ((Inserter.new (emptyDB fun _ => true)).insert_item
        (Item.Directory (sampleDirectory 43))).new_directories := by
  simp [Inserter.insert_item, Inserter.new, emptyDB, sampleDirectory,
    INDEX_BUILDING_INSERT_BUFFER_SIZE]

/-- Claim C2 as amended: entry descriptors arriving on the channel
already carry all §3 fields — including, for Directory entries, the
`date_added` value — and the Inserter appends each descriptor to the
buffer of its kind verbatim, assigning neither a `date_added` timestamp
nor any generation tag (no generation field exists in the row types). -/
theorem C2_descriptor_verbatim (s : Inserter) (d : Directory) (sg : Song)
    (hd : s.new_directories.length + 1 < INDEX_BUILDING_INSERT_BUFFER_SIZE)
    (hs : s.new_songs.length + 1 < INDEX_BUILDING_INSERT_BUFFER_SIZE) :
    (s.insert_item (Item.Directory d)).new_directories
        = s.new_directories ++ [d] ∧
    ((s.insert_item (Item.Directory d)).new_directories.getLast?.map
        Directory.date_added = some d.date_added) ∧
    (s.insert_item (Item.Song sg)).new_songs = s.new_songs ++ [sg] := by
  have h1 : s.insert_item (Item.Directory d)
      = { s with new_directories := s.new_directories ++ [d] } := by
    rw [Inserter.insert_item, if_neg]
    simp only [List.length_append, List.length_cons, List.length_nil]
    omega
  have h2 : s.insert_item (Item.Song sg)
      = { s with new_songs := s.new_songs ++ [sg] } := by
    rw [Inserter.insert_item, if_neg]
    simp only [List.length_append, List.length_cons, List.length_nil]
    omega
  refine ⟨by rw [h1], ?_, by rw [h2]⟩
  rw [h1]
  simp

/-- Witness for C2 as amended: appending to a fresh Inserter preserves a
descriptor whose `date_added` is 42. -/
theorem C2_descriptor_verbatim_witness :
    ((Inserter.new (emptyDB fun _ => true)).new_directories.length + 1
        < INDEX_BUILDING_INSERT_BUFFER_SIZE) ∧
    ((Inserter.new (emptyDB fun _ => true)).insert_item
        (Item.Directory (sampleDirectory 42))).new_directories.getLast?.map
      Directory.date_added = some 42 :=
  ⟨by decide,
    ((C2_descriptor_verbatim (Inserter.new (emptyDB fun _ => true))
      (sampleDirectory 42) sampleSong (by decide) (by decide)).2.1).trans rfl⟩

/-- Claim C3: `insert_item` appends the received entry to the buffer of
its kind and flushes that buffer exactly when its length has reached
1000 (given the invariant that buffers stay below 1000 between calls);
a flush is one bulk insert of the whole buffered row list, followed by a
clear of the buffer. -/
theorem C3_threshold_flush (s : Inserter) (d : Directory) (sg : Song)
    (hd : s.new_directories.length < INDEX_BUILDING_INSERT_BUFFER_SIZE)
    (hs : s.new_songs.length < INDEX_BUILDING_INSERT_BUFFER_SIZE) :
    ((s.new_directories.length + 1 = INDEX_BUILDING_INSERT_BUFFER_SIZE →
        s.insert_item (Item.Directory d)
          = ({ s with
                new_directories := s.new_directories ++ [d] }).flush_directories) ∧
      (s.new_directories.length + 1 ≠ INDEX_BUILDING_INSERT_BUFFER_SIZE →
        s.insert_item (Item.Directory d)
          = { s with new_directories := s.new_directories ++ [d] })) ∧
    ((s.new_songs.length + 1 = INDEX_BUILDING_INSERT_BUFFER_SIZE →
        s.insert_item (Item.Song sg)
          = ({ s with new_songs := s.new_songs ++ [sg] }).flush_songs) ∧
      (s.new_songs.length + 1 ≠ INDEX_BUILDING_INSERT_BUFFER_SIZE →
        s.insert_item (Item.Song sg)
          = { s with new_songs := s.new_songs ++ [sg] })) ∧
    (∀ s' : Inserter,
      (s'.flush_directories).new_directories = [] ∧
      (s'.db.connectOk s'.db.connAttempts = true →
        (s'.flush_directories).db.directoriesTable
          = s'.db.directoriesTable ++ s'.new_directories)) ∧
    (∀ s' : Inserter,
      (s'.flush_songs).new_songs = [] ∧
      (s'.db.connectOk s'.db.connAttempts = true →
        (s'.flush_songs).db.songsTable
          = s'.db.songsTable ++ s'.new_songs)) := by
  refine ⟨⟨?_, ?_⟩, ⟨?_, ?_⟩,
    fun s' => ⟨flush_directories_new_directories s',
      fun h => flush_directories_table_ok s' h⟩,
    fun s' => ⟨flush_songs_new_songs s',
      fun h => flush_songs_table_ok s' h⟩⟩
  · intro h
    rw [Inserter.insert_item, if_pos]
    simp only [List.length_append, List.length_cons, List.length_nil]
    omega
  · intro h
    rw [Inserter.insert_item, if_neg]
    simp only [List.length_append, List.length_cons, List.length_nil]
    omega
  · intro h
    rw [Inserter.insert_item, if_pos]
    simp only [List.length_append, List.length_cons, List.length_nil]
    omega
  · intro h
    rw [Inserter.insert_item, if_neg]
    simp only [List.length_append, List.length_cons, List.length_nil]
    omega

/-- Witness for C3: on a fresh Inserter (buffer length 1 after the push,
below the threshold) the item is appended without a flush. -/
theorem C3_threshold_flush_witness :
    ((Inserter.new (emptyDB fun _ => true)).new_directories.length
        < INDEX_BUILDING_INSERT_BUFFER_SIZE) ∧
    ((Inserter.new (emptyDB fun _ => true)).insert_item
        (Item.Directory (sampleDirectory 5))
      = { Inserter.new (emptyDB fun _ => true) with
          new_directories := [sampleDirectory 5] }) :=
  ⟨by decide,
    ((C3_threshold_flush (Inserter.new (emptyDB fun _ => true))
        (sampleDirectory 5) sampleSong (by decide) (by decide)).1.2
      (by decide)).trans rfl⟩

/-- Claim C4: when a batch flush fails (the database connection attempt
for it fails), the failure is only logged and the buffer cleared — the
tables are untouched and the other buffer is kept — and ingestion
continues: for any connection oracle the whole run still completes with
both buffers drained, and each final table is a sublist of what full
success would have written, so a failed batch affects that batch's rows
only and never aborts the scan. -/
theorem C4_flush_failure_nonfatal (s : Inserter)
    (hfail : s.db.connectOk s.db.connAttempts = false) :
    s.flush_directories
        = { s with
            db := { s.db with connAttempts := s.db.connAttempts + 1 },
            new_directories := [],
            errorLog := s.errorLog ++ [directoriesFlushError] } ∧
    s.flush_songs
        = { s with
            db := { s.db with connAttempts := s.db.connAttempts + 1 },
            new_songs := [],
            errorLog := s.errorLog ++ [songsFlushError] } ∧
    (∀ (db : DBState) (items : List Item),
      ((Inserter.new db).insert items).new_directories = [] ∧
      ((Inserter.new db).insert items).new_songs = [] ∧
      ((((Inserter.new db).insert items).db.directoriesTable).Sublist
        (db.directoriesTable ++ dirsOf items)) ∧
      ((((Inserter.new db).insert items).db.songsTable).Sublist
        (db.songsTable ++ songsOf items))) := by
  refine ⟨flush_directories_fail s hfail, flush_songs_fail s hfail,
    fun db items => ?_⟩
  have hb : ((Inserter.new db).insert items).new_directories = [] ∧
      ((Inserter.new db).insert items).new_songs = [] := by
    rw [Inserter.insert]; exact finalFlush_buffers _
  exact ⟨hb.1, hb.2, (insert_tables_sub db items).1,
    (insert_tables_sub db items).2⟩

/-- Witness for C4: a flush on an always-failing connection logs the
error, clears the buffer, and writes nothing. -/
theorem C4_flush_failure_nonfatal_witness :
    ((emptyDB fun _ => false).connectOk
        (emptyDB fun _ => false).connAttempts = false) ∧
    ({ new_directories := [sampleDirectory 7], new_songs := [],
        db := emptyDB fun _ => false,
        errorLog := [] } : Inserter).flush_directories
      = { new_directories := [], new_songs := [],
          db := { emptyDB fun _ => false with connAttempts := 1 },
          errorLog := [directoriesFlushError] } :=
  ⟨rfl,
    ((C4_flush_failure_nonfatal
      { new_directories := [sampleDirectory 7], new_songs := [],
        db := emptyDB fun _ => false, errorLog := [] } rfl).1).trans rfl⟩

/-- Claim C7: `trigger_index` returns success immediately whatever the
coordinator's state, and a trigger received while a scan is in progress
is a no-op — it starts no second scan pipeline and leaves the
coordinator unchanged. -/
theorem C7_trigger_single_flight (c : Coordinator) :
    (trigger_index c).2 = some () ∧
    (c.phase = CoordPhase.Scanning →
      (trigger_index c).1 = c ∧
      (trigger_index c).1.pipelinesStarted = c.pipelinesStarted) := by
  obtain ⟨ph, n⟩ := c
  constructor
  · cases ph <;> rfl
  · intro hphase
    cases ph with
    | Scanning => exact ⟨rfl, rfl⟩
    | Idle => cases hphase
    | CuttingOver => cases hphase

/-- Witness for C7: a trigger while Scanning leaves a concrete
coordinator unchanged. -/
theorem C7_trigger_single_flight_witness :
    ((⟨CoordPhase.Scanning, 1⟩ : Coordinator).phase
        = CoordPhase.Scanning) ∧
    (trigger_index ⟨CoordPhase.Scanning, 1⟩).1
      = (⟨CoordPhase.Scanning, 1⟩ : Coordinator) :=
  ⟨rfl, ((C7_trigger_single_flight ⟨CoordPhase.Scanning, 1⟩).2 rfl).1⟩

/-- Claim C8: right after `Inserter::new` and after every return of
`insert_item` each buffer holds strictly fewer than 1000 entries
(assuming, inductively, that both buffers were below 1000 before the
call), and consequently one `insert_item` step grows each table by at
most 1000 rows — every bulk insert writes at most 1000 rows in one
statement. -/
theorem C8_buffer_bound (db : DBState) (s : Inserter) (i : Item)
    (hd : s.new_directories.length < INDEX_BUILDING_INSERT_BUFFER_SIZE)
    (hs : s.new_songs.length < INDEX_BUILDING_INSERT_BUFFER_SIZE) :
    (Inserter.new db).new_directories.length
        < INDEX_BUILDING_INSERT_BUFFER_SIZE ∧
    (Inserter.new db).new_songs.length
        < INDEX_BUILDING_INSERT_BUFFER_SIZE ∧
    (s.insert_item i).new_directories.length
        < INDEX_BUILDING_INSERT_BUFFER_SIZE ∧
    (s.insert_item i).new_songs.length
        < INDEX_BUILDING_INSERT_BUFFER_SIZE ∧
    (s.insert_item i).db.directoriesTable.length
        ≤ s.db.directoriesTable.length + INDEX_BUILDING_INSERT_BUFFER_SIZE ∧
    (s.insert_item i).db.songsTable.length
        ≤ s.db.songsTable.length + INDEX_BUILDING_INSERT_BUFFER_SIZE := by
  refine ⟨by simp [Inserter.new, INDEX_BUILDING_INSERT_BUFFER_SIZE],
    by simp [Inserter.new, INDEX_BUILDING_INSERT_BUFFER_SIZE], ?_⟩
  cases i with
  | Directory d =>
    rw [Inserter.insert_item]
    split
    · have t1 := flush_directories_table_sub
        { s with new_directories := s.new_directories ++ [d] }
      have t1' := t1.length_le
      dsimp only at t1'
      simp only [List.length_append, List.length_cons, List.length_nil] at t1'
      refine ⟨?_, ?_, ?_, ?_⟩
      · rw [flush_directories_new_directories]
        simp [INDEX_BUILDING_INSERT_BUFFER_SIZE]
      · rw [flush_directories_new_songs]
        exact hs
      · simp only [INDEX_BUILDING_INSERT_BUFFER_SIZE] at hd t1' ⊢
        omega
      · rw [flush_directories_songsTable]
        dsimp only
        omega
    · next hcond =>
      simp only [List.length_append, List.length_cons, List.length_nil,
        not_le] at hcond
      exact ⟨by simpa using hcond, hs, by dsimp only; omega,
        by dsimp only; omega⟩
  | Song sg =>
    rw [Inserter.insert_item]
    split
    · have t1 := flush_songs_table_sub
        { s with new_songs := s.new_songs ++ [sg] }
      have t1' := t1.length_le
      dsimp only at t1'
      simp only [List.length_append, List.length_cons, List.length_nil] at t1'
      refine ⟨?_, ?_, ?_, ?_⟩
      · rw [flush_songs_new_directories]
        exact hd
      · rw [flush_songs_new_songs]
        simp [INDEX_BUILDING_INSERT_BUFFER_SIZE]
      · rw [flush_songs_directoriesTable]
        dsimp only
        omega
      · simp only [INDEX_BUILDING_INSERT_BUFFER_SIZE] at hs t1' ⊢
        omega
    · next hcond =>
      simp only [List.length_append, List.length_cons, List.length_nil,
        not_le] at hcond
      exact ⟨hd, by simpa using hcond, by dsimp only; omega,
        by dsimp only; omega⟩

/-- Witness for C8: the invariant instantiated on a fresh Inserter
receiving one song. -/
theorem C8_buffer_bound_witness :
    ((Inserter.new (emptyDB fun _ => true)).new_directories.length
        < INDEX_BUILDING_INSERT_BUFFER_SIZE) ∧
    ((Inserter.new (emptyDB fun _ => true)).insert_item
        (Item.Song sampleSong)).new_songs.length
      < INDEX_BUILDING_INSERT_BUFFER_SIZE :=
  ⟨by decide,
    (C8_buffer_bound (emptyDB fun _ => true)
      (Inserter.new (emptyDB fun _ => true)) (Item.Song sampleSong)
      (by decide) (by decide)).2.2.2.1⟩

end Swine
